import Mathlib

/-!
Round5 reference fragment: matrix generation, hashing, CCA KEM.

A shallow embedding of

* `reference/src/a_random.c`  (`create_A_random`),
* `tiny/src/r5_hash.h`        (`hash`, `hash_customization`),
* `reference/src/a_fixed.h`   (`A_fixed`, `A_fixed_len`, `create_A_fixed`: declarations only),
* `reference/src/r5_cca_kem.h` (the three CCA KEM entry points: declarations only),

and of the properties stated about them.

Conventions. Bytes and ring elements are natural numbers; a C buffer is a
`List Nat`. Unsigned machine arithmetic is written with an explicit
`% 2 ^ w`. A C function that may leave through `exit` returns an `Outcome`.
Collaborators whose code is not part of the fragment (the SHAKE family, the
sampler, the CPA primitive) are parameters of the definitions that call them.
-/

namespace Round5

/-! ## Data model -/

/-- Modelled from the spec: the `parameters` record of `parameters.h`, which is
absent. Only the fields read by `create_A_random` are kept: ring dimension `d`,
rank `k`, modulus `q`, seed length `kappa_bytes` and the generation mode `tau`. -/
structure parameters where
  d : Nat
  k : Nat
  q : Nat
  kappa_bytes : Nat
  tau : Nat
deriving DecidableEq, Repr

/-- Field widths of the `parameters` record as `create_A_random` uses them:
`d` and `k` are 16-bit unsigned fields (their product is formed in `int` and
cast to `uint32_t`), and `q` fits the `uint32_t` it is assigned to without a
cast. The product of two such fields is below `2 ^ 32`; where it reaches
`2 ^ 31` the `int` product is read as the two's-complement value the cast turns
back into `d * k`. -/
def parameters.in_range (p : parameters) : Prop :=
  p.d < 2 ^ 16 ∧ p.k < 2 ^ 16 ∧ p.q < 2 ^ 32

instance (p : parameters) : Decidable p.in_range := by
  unfold parameters.in_range; infer_instance

/-- The value of `EXIT_FAILURE` of `<stdlib.h>`. -/
def EXIT_FAILURE : Nat := 1

/-- One invocation of `drbg_sampler16_2_once`, with the arguments it received:
`(x, xlen, seed, seed_size, range)` without the output pointer `x`. -/
structure sampler_call where
  xlen : Nat
  seed : List Nat
  seed_size : Nat
  range : Nat
deriving DecidableEq, Repr

/-- The part of the process state `create_A_random` can touch besides its output
buffer: what has been printed on `stderr`, and the trace of sampler invocations. -/
structure process_state where
  stderr : List String
  sampler_calls : List sampler_call
deriving DecidableEq, Repr

/-- How a call of a C function of the fragment ends: it returns `ret` to its
caller, or it terminates the whole process through `exit(status)`. In both cases
the buffer `A_random` and the process state are as the call left them. -/
inductive Outcome where
  | returned (ret : Int) (A_random : List Nat) (st : process_state)
  | exited (status : Nat) (A_random : List Nat) (st : process_state)
deriving DecidableEq, Repr

/-- The type of `drbg_sampler16_2_once` seen as a function: from
`(xlen, seed, seed_size, range)` to the elements it stores at `x[0], x[1], ...`. -/
abbrev sampler := Nat → List Nat → Nat → Nat → List Nat

/-- Storing `vals` at the start of the buffer `x`: positions `0 .. vals.length - 1`
are overwritten, the rest of `x` keeps its prior contents. -/
def store (x : List Nat) (vals : List Nat) : List Nat :=
  vals ++ x.drop vals.length

/-! ## `create_A_random` (a_random.c, lines 43 to 61) -/

/-- The `switch (params->tau)` of `create_A_random`, lines 46 to 57: the value
assigned to the `uint32_t num_elements`, or `none` in the `default` case. -/
def num_elements (params : parameters) : Option Nat :=
  match params.tau with
  | 0 => some ((params.d * params.k) % 2 ^ 32)
  | 1 => some ((params.d * params.k) % 2 ^ 32)
  | 2 => some (params.q % 2 ^ 32)
  | _ => none

/-- The function `create_A_random(A_random, seed, params)`. The sampler
`drbg_sampler16_2_once` (drbg.h, absent) is the parameter `drbg`. In the
`default` case the code prints on `stderr` and calls `exit(EXIT_FAILURE)`;
otherwise it calls the sampler once, on `A_random`, and returns `0`. -/
def create_A_random (drbg : sampler) (A_random : List Nat) (seed : List Nat)
    (params : parameters) (st : process_state) : Outcome :=
  match num_elements params with
  | none =>
    Outcome.exited EXIT_FAILURE A_random
      { st with stderr := st.stderr ++
          ["Error: Wrong tau value for generating A: " ++ toString (params.tau % 256) ++ ".\n"] }
  | some n =>
    Outcome.returned 0
      (store A_random (drbg n seed params.kappa_bytes params.q))
      { st with sampler_calls := st.sampler_calls ++
          [{ xlen := n, seed := seed, seed_size := params.kappa_bytes, range := params.q }] }

/-- The matrix a call leaves for its caller: the first `n` elements of the
buffer when the call returned, nothing when the process exited. -/
def Outcome.matrix (o : Outcome) (n : Nat) : Option (List Nat) :=
  match o with
  | Outcome.returned _ A _ => some (A.take n)
  | Outcome.exited _ _ _ => none

/-! ## `hash` and `hash_customization` (r5_hash.h, lines 54 to 82) -/

/-- Modelled from the spec: the two extendable-output families of `shake.h`,
which is absent: the 128-bit-level ("light") and the 256-bit-level ("strong")
function, each in a plain and in a customized form. Arguments are
`(output_len, input, input_len)` and, for the customized form,
`(output_len, input, input_len, customization, customization_len)`; the value is
the content written to `output`. -/
structure shake_primitives where
  shake128 : Nat → List Nat → Nat → List Nat
  shake256 : Nat → List Nat → Nat → List Nat
  cshake128 : Nat → List Nat → Nat → List Nat → Nat → List Nat
  cshake256 : Nat → List Nat → Nat → List Nat → Nat → List Nat

/-- The function `hash(output, output_len, input, input_len, kappa_bytes)`:
its value is what is written to `output`. -/
def hash (X : shake_primitives) (output_len : Nat) (input : List Nat) (input_len : Nat)
    (kappa_bytes : Nat) : List Nat :=
  if kappa_bytes > 16 then
    X.shake256 output_len input input_len
  else
    X.shake128 output_len input input_len

/-- The function `hash_customization(output, output_len, input, input_len,
customization, customization_len, kappa_bytes)`. -/
def hash_customization (X : shake_primitives) (output_len : Nat) (input : List Nat)
    (input_len : Nat) (customization : List Nat) (customization_len : Nat)
    (kappa_bytes : Nat) : List Nat :=
  if kappa_bytes > 16 then
    X.cshake256 output_len input input_len customization customization_len
  else
    X.cshake128 output_len input input_len customization customization_len

/-! ## The sampler (drbg.c is absent) -/

/-- Modelled from the spec: the little-endian decoder `u16_from_le` of the
byte-array codec (little_endian.h is absent; little_endian.c only declares it):
two bytes, least significant first, give a 16-bit value. -/
def u16_from_le (b0 b1 : Nat) : Nat :=
  b0 % 256 + 256 * (b1 % 256)

/-- Modelled from the spec: the chunks of the pseudorandom byte stream, two
bytes for each 16-bit candidate element. -/
def chunks16 : List Nat → List Nat
  | b0 :: b1 :: rest => u16_from_le b0 b1 :: chunks16 rest
  | _ => []

/-- Modelled from the spec: the DeterministicSampler `drbg_sampler16_2_once`
(drbg.c is absent). It "expands the seed into an arbitrarily long pseudorandom
byte stream via ExtendableHash" (here `stream_len` bytes of `hash`, selected by
`seed_size`), "maps chunks of that stream to ring elements", and candidates
outside `[0, range)` "are discarded rather than reduced"; the first `xlen`
accepted candidates are the output. -/
def drbg_sampler16_2_once (X : shake_primitives) (stream_len : Nat) : sampler :=
  fun xlen seed seed_size range =>
    ((chunks16 (hash X stream_len seed seed_size seed_size)).filter
      (fun v => decide (v < range))).take xlen

/-! ## The fixed matrix (a_fixed.h declares it; a_fixed.c is absent) -/

/-- The two globals declared in a_fixed.h, lines 45 and 50: the fixed matrix
`A_fixed` and its number of elements `A_fixed_len`. -/
structure fixed_matrix where
  A_fixed : List Nat
  A_fixed_len : Nat
deriving DecidableEq, Repr

/-- Modelled from the spec: the error taxonomy of the core. -/
inductive kem_error where
  | InvalidParameter
  | UninitializedFixedMatrix
deriving DecidableEq, Repr

/-- Modelled from the spec: the element count of a matrix, `d * k` for
`tau ∈ {0,1}` and `q` for `tau = 2`; no count for any other mode. -/
def element_count (params : parameters) : Option Nat :=
  match params.tau with
  | 0 => some (params.d * params.k)
  | 1 => some (params.d * params.k)
  | 2 => some params.q
  | _ => none

/-- Modelled from the spec: `create_A_fixed(seed, params)`, of which a_fixed.h
holds only the declaration. It "computes and stores the process-wide fixed
matrix" from the seed, overwriting unguardedly what was stored before; success
is the return value `0`, here `Except.ok` with the globals after the call. An
unsupported `tau` is `InvalidParameter` and leaves the globals alone. -/
def create_A_fixed (drbg : sampler) (seed : List Nat) (params : parameters)
    (_g : fixed_matrix) : Except kem_error fixed_matrix :=
  match element_count params with
  | none => Except.error kem_error.InvalidParameter
  | some n =>
    Except.ok { A_fixed := drbg n seed params.kappa_bytes params.q, A_fixed_len := n }

/-- Reading the fixed instance: the contents and length seen by the reader, and
the globals after the read. -/
def read_A_fixed (g : fixed_matrix) : (List Nat × Nat) × fixed_matrix :=
  ((g.A_fixed, g.A_fixed_len), g)

/-- The values seen by `n` successive reads of the fixed instance, and the
globals after the last one. -/
def read_A_fixed_times : Nat → fixed_matrix → List (List Nat × Nat) × fixed_matrix
  | 0, g => ([], g)
  | n + 1, g =>
    let r := read_A_fixed g
    let rest := read_A_fixed_times n r.2
    (r.1 :: rest.1, rest.2)

/-! ## The CCA KEM (r5_cca_kem.h declares it; its body is absent) -/

/-- Modelled from the spec: the external CPAPrimitive, "opaque, deterministic
operations": `keygen(params)` with its random coins made explicit gives
`(pk, sk)`, `encrypt(message, randomness, pk)` gives a ciphertext,
`decrypt(ciphertext, sk)` gives a message. -/
structure CPAPrimitive where
  keygen : parameters → List Nat → List Nat × List Nat
  encrypt : List Nat → List Nat → List Nat → List Nat
  decrypt : List Nat → List Nat → List Nat

/-- Modelled from the spec: `hashWithTag(input, tag)` of ExtendableHash as the
KEM uses it, a deterministic function of the input and of the tag. -/
abbrev tagged_hash := List Nat → String → List Nat

/-- Modelled from the spec: the secret key, "CPAsecret ∥ r ∥ publicKey". -/
structure secret_key where
  cpa_sk : List Nat
  r : List Nat
  pk : List Nat
deriving DecidableEq, Repr

/-- Modelled from the spec: the KEM ciphertext, "CPA ciphertext bytes
concatenated with kappa_bytes of additional confirmation/derivation material". -/
structure kem_ciphertext where
  ct : List Nat
  confirmation : List Nat
deriving DecidableEq, Repr

/-- Modelled from the spec: the re-encryption of decapsulation,
`ct' = encrypt(m', hashWithTag(m' ∥ pk, "encrypt"), pk)` for
`m' = decrypt(ct, CPAsecret)`. -/
def reencrypt (P : CPAPrimitive) (H : tagged_hash) (c : kem_ciphertext) (sk : secret_key) :
    List Nat :=
  let m1 := P.decrypt c.ct sk.cpa_sk
  P.encrypt m1 (H (m1 ++ sk.pk) "encrypt") sk.pk

/-- Modelled from the spec: `r5_cca_kem_decapsulate_p`. If the re-encrypted
ciphertext equals the received one, `k = hashWithTag(m' ∥ ct, "derive")`,
otherwise `k = hashWithTag(r ∥ ct, "derive")`. The result is the return value
`0` and the shared secret. -/
def r5_cca_kem_decapsulate_p (P : CPAPrimitive) (H : tagged_hash) (c : kem_ciphertext)
    (sk : secret_key) : Int × List Nat :=
  let m1 := P.decrypt c.ct sk.cpa_sk
  if reencrypt P H c sk = c.ct then
    (0, H (m1 ++ c.ct) "derive")
  else
    (0, H (sk.r ++ c.ct) "derive")

/-! ## Concrete instances used to evaluate the definitions -/

/-- A small stand-in for the SHAKE family: byte `i` of the output depends on
`i`, on the input length and on the customization length only. -/
def example_shake : shake_primitives where
  shake128 := fun output_len _ input_len =>
    (List.range output_len).map (fun i => if i % 2 = 0 then (5 * (i / 2) + input_len) % 32 else 0)
  shake256 := fun output_len _ input_len =>
    (List.range output_len).map (fun i => if i % 2 = 0 then (7 * (i / 2) + input_len) % 32 else 0)
  cshake128 := fun output_len _ input_len _ customization_len =>
    (List.range output_len).map
      (fun i => if i % 2 = 0 then (5 * (i / 2) + input_len + customization_len) % 32 else 0)
  cshake256 := fun output_len _ input_len _ customization_len =>
    (List.range output_len).map
      (fun i => if i % 2 = 0 then (7 * (i / 2) + input_len + customization_len) % 32 else 0)

/-- The sampler of the model over `example_shake`, drawing 32 candidates. -/
def example_sampler : sampler := drbg_sampler16_2_once example_shake 64

/-- The parameter set of the example vector: `d = 8`, `k = 1`, `q = 16`,
`tau = 1`, with a seed of 32 bytes. -/
def example_params : parameters :=
  { d := 8, k := 1, q := 16, kappa_bytes := 32, tau := 1 }

/-- The seed of the example vector: 32 zero bytes. -/
def example_seed : List Nat := List.replicate 32 0

/-- The process state before anything has run. -/
def initial_state : process_state := { stderr := [], sampler_calls := [] }

/-- A tagged hash that keeps its input and puts the length of the tag in front. -/
def example_hash : tagged_hash := fun input tag => tag.length :: input

/-- A CPA primitive whose decryption recovers the message: the ciphertext is the
length of the message, the length of the randomness, then the message. -/
def example_cpa : CPAPrimitive where
  keygen := fun _ coins => (coins, coins.reverse)
  encrypt := fun m rho _ => m.length :: rho.length :: m
  decrypt := fun ct _ => ct.drop 2

/-! ## Auxiliary facts -/

theorem store_take (x vals : List Nat) : (store x vals).take vals.length = vals := by
  simp [store]

theorem store_drop (x vals : List Nat) : (store x vals).drop vals.length = x.drop vals.length := by
  simp [store]

theorem mul_lt_two_pow_32 {a b : Nat} (ha : a < 2 ^ 16) (hb : b < 2 ^ 16) : a * b < 2 ^ 32 := by
  have h : a * b ≤ (2 ^ 16 - 1) * (2 ^ 16 - 1) := Nat.mul_le_mul (by omega) (by omega)
  calc a * b ≤ (2 ^ 16 - 1) * (2 ^ 16 - 1) := h
    _ < 2 ^ 32 := by norm_num

/-- Within the field widths the `uint32_t` assignment of the `switch` does not
wrap: `num_elements` is `d * k` for `tau ∈ {0,1}` and `q` for `tau = 2`. -/
theorem num_elements_of_in_range (p : parameters) (hr : p.in_range)
    (htau : p.tau = 0 ∨ p.tau = 1 ∨ p.tau = 2) :
    num_elements p = some (if p.tau = 2 then p.q else p.d * p.k) := by
  obtain ⟨hd, hk, hq⟩ := hr
  have hdk : p.d * p.k < 2 ^ 32 := mul_lt_two_pow_32 hd hk
  rcases htau with h | h | h
  · rw [num_elements, h, Nat.mod_eq_of_lt hdk]; simp
  · rw [num_elements, h, Nat.mod_eq_of_lt hdk]; simp
  · rw [num_elements, h, Nat.mod_eq_of_lt hq]; simp

theorem num_elements_eq_none_iff (p : parameters) :
    num_elements p = none ↔ ¬ (p.tau = 0 ∨ p.tau = 1 ∨ p.tau = 2) := by
  unfold num_elements
  split <;> simp_all

theorem create_A_random_of_some (drbg : sampler) (A seed : List Nat) (p : parameters)
    (st : process_state) (n : Nat) (hn : num_elements p = some n) :
    create_A_random drbg A seed p st =
      Outcome.returned 0 (store A (drbg n seed p.kappa_bytes p.q))
        { st with sampler_calls := st.sampler_calls ++
            [{ xlen := n, seed := seed, seed_size := p.kappa_bytes, range := p.q }] } := by
  simp [create_A_random, hn]

theorem create_A_random_of_none (drbg : sampler) (A seed : List Nat) (p : parameters)
    (st : process_state) (hn : num_elements p = none) :
    create_A_random drbg A seed p st =
      Outcome.exited EXIT_FAILURE A
        { st with stderr := st.stderr ++
            ["Error: Wrong tau value for generating A: " ++ toString (p.tau % 256) ++ ".\n"] } := by
  simp [create_A_random, hn]

/-- Rejection: every element the modelled sampler delivers passed the test
`v < range`. -/
theorem drbg_sampler16_2_once_lt (X : shake_primitives) (stream_len xlen : Nat)
    (seed : List Nat) (seed_size range : Nat) :
    ∀ v ∈ drbg_sampler16_2_once X stream_len xlen seed seed_size range, v < range := by
  intro v hv
  unfold drbg_sampler16_2_once at hv
  have h := List.mem_of_mem_take hv
  simpa using (List.mem_filter.mp h).2

/-- Enough candidates: when the stream holds at least `xlen` candidates below
`range`, the modelled sampler delivers exactly `xlen` elements. -/
theorem drbg_sampler16_2_once_length (X : shake_primitives) (stream_len xlen : Nat)
    (seed : List Nat) (seed_size range : Nat)
    (h : xlen ≤ ((chunks16 (hash X stream_len seed seed_size seed_size)).filter
      (fun v => decide (v < range))).length) :
    (drbg_sampler16_2_once X stream_len xlen seed seed_size range).length = xlen := by
  unfold drbg_sampler16_2_once
  rw [List.length_take]
  exact Nat.min_eq_left h

/-- The modelled sampler never delivers more than it is asked for. -/
theorem drbg_sampler16_2_once_length_le (X : shake_primitives) (stream_len xlen : Nat)
    (seed : List Nat) (seed_size range : Nat) :
    (drbg_sampler16_2_once X stream_len xlen seed seed_size range).length ≤ xlen := by
  unfold drbg_sampler16_2_once
  simp [List.length_take]

/-! ## `create_A_random`: element count, failure, range, determinism -/

/-- C1: for every seed and every parameter set with `tau ∈ {0,1,2}`,
`create_A_random` returns `0` after exactly one sampler call, which asks for
`n = d * k` elements when `tau` is `0` or `1` and for `n = q` elements when `tau`
is `2` (seed, `kappa_bytes` and `q` being handed over unchanged); a sampler that
delivers the `n` elements it is asked for therefore leaves exactly `n` elements,
its own output, at the start of the buffer, and the rest of the buffer as it was. -/
theorem create_A_random_element_count (drbg : sampler) (A seed : List Nat) (p : parameters)
    (st : process_state) (n : Nat)
    (hr : p.in_range)
    (htau : p.tau = 0 ∨ p.tau = 1 ∨ p.tau = 2)
    (hn : n = if p.tau = 2 then p.q else p.d * p.k)
    (hdel : (drbg n seed p.kappa_bytes p.q).length = n) :
    ∃ A1 st1,
      create_A_random drbg A seed p st = Outcome.returned 0 A1 st1 ∧
      st1.sampler_calls = st.sampler_calls ++
        [{ xlen := n, seed := seed, seed_size := p.kappa_bytes, range := p.q }] ∧
      st1.stderr = st.stderr ∧
      A1.take n = drbg n seed p.kappa_bytes p.q ∧
      (A1.take n).length = n ∧
      A1.drop n = A.drop n := by
  have hnum : num_elements p = some n := by
    rw [hn]; exact num_elements_of_in_range p hr htau
  refine ⟨_, _, create_A_random_of_some drbg A seed p st n hnum, rfl, rfl, ?_, ?_, ?_⟩
  · have h := store_take A (drbg n seed p.kappa_bytes p.q)
    rwa [hdel] at h
  · have h := store_take A (drbg n seed p.kappa_bytes p.q)
    rw [hdel] at h
    rw [h, hdel]
  · have h := store_drop A (drbg n seed p.kappa_bytes p.q)
    rwa [hdel] at h

/-- Witness of C1 on the example vector: `d = 8`, `k = 1`, `q = 16`, `tau = 1`
and a seed of 32 zero bytes give exactly 8 elements. -/
theorem create_A_random_element_count_example :
    ∃ A1 st1,
      create_A_random example_sampler [40, 41, 42, 43, 44, 45, 46, 47, 48, 49] example_seed
        example_params initial_state = Outcome.returned 0 A1 st1 ∧
      st1.sampler_calls = initial_state.sampler_calls ++
        [{ xlen := 8, seed := example_seed, seed_size := example_params.kappa_bytes,
           range := example_params.q }] ∧
      st1.stderr = initial_state.stderr ∧
      A1.take 8 = example_sampler 8 example_seed example_params.kappa_bytes example_params.q ∧
      (A1.take 8).length = 8 ∧
      A1.drop 8 = [40, 41, 42, 43, 44, 45, 46, 47, 48, 49].drop 8 :=
  create_A_random_element_count example_sampler [40, 41, 42, 43, 44, 45, 46, 47, 48, 49]
    example_seed example_params initial_state 8 (by decide) (by decide) (by decide) (by decide)

/-- Counterexample to C2 as stated: with `tau = 3`, which is outside `{0,1,2}`,
nothing is returned to the caller. The call ends the process through
`exit(EXIT_FAILURE)` after one line on `stderr`. -/
theorem create_A_random_tau_3_exits :
    ¬ ((3 : Nat) = 0 ∨ (3 : Nat) = 1 ∨ (3 : Nat) = 2) ∧
    create_A_random example_sampler [40, 41, 42] example_seed
        { d := 8, k := 1, q := 16, kappa_bytes := 32, tau := 3 } initial_state
      = Outcome.exited 1 [40, 41, 42]
          { stderr := ["Error: Wrong tau value for generating A: 3.\n"], sampler_calls := [] } ∧
    ¬ ∃ ret A1 st1,
        create_A_random example_sampler [40, 41, 42] example_seed
          { d := 8, k := 1, q := 16, kappa_bytes := 32, tau := 3 } initial_state
        = Outcome.returned ret A1 st1 := by
  refine ⟨by decide, by decide, ?_⟩
  rintro ⟨ret, A1, st1, h⟩
  rw [create_A_random_of_none _ _ _ _ _ (by decide)] at h
  exact Outcome.noConfusion h

/-- C2, amended: `create_A_random` ends the process through `exit(EXIT_FAILURE)`,
returning nothing to its caller, if and only if `params.tau` is outside
`{0,1,2}`; in that case the sampler is not invoked (the trace of sampler calls is
unchanged), the output buffer is left unchanged and one line is added to
`stderr`. It returns `0`, after one sampler call, if and only if `tau` is in
`{0,1,2}`. -/
theorem create_A_random_exit_iff (drbg : sampler) (A seed : List Nat) (p : parameters)
    (st : process_state) :
    ((∃ st1, create_A_random drbg A seed p st = Outcome.exited EXIT_FAILURE A st1 ∧
        st1.sampler_calls = st.sampler_calls ∧ st1.stderr.length = st.stderr.length + 1) ↔
      ¬ (p.tau = 0 ∨ p.tau = 1 ∨ p.tau = 2)) ∧
    ((∃ A1 st1, create_A_random drbg A seed p st = Outcome.returned 0 A1 st1 ∧
        st1.sampler_calls.length = st.sampler_calls.length + 1) ↔
      (p.tau = 0 ∨ p.tau = 1 ∨ p.tau = 2)) ∧
    ((∃ ret A1 st1, create_A_random drbg A seed p st = Outcome.returned ret A1 st1) ↔
      (p.tau = 0 ∨ p.tau = 1 ∨ p.tau = 2)) := by
  cases hnum : num_elements p with
  | none =>
    have hout : ¬ (p.tau = 0 ∨ p.tau = 1 ∨ p.tau = 2) := (num_elements_eq_none_iff p).mp hnum
    rw [create_A_random_of_none drbg A seed p st hnum]
    refine ⟨⟨fun _ => hout, fun _ => ⟨_, rfl, rfl, by simp⟩⟩, ⟨?_, fun h => absurd h hout⟩,
      ⟨?_, fun h => absurd h hout⟩⟩
    · rintro ⟨A1, st1, h, -⟩
      exact Outcome.noConfusion h
    · rintro ⟨ret, A1, st1, h⟩
      exact Outcome.noConfusion h
  | some n =>
    have hin : p.tau = 0 ∨ p.tau = 1 ∨ p.tau = 2 := by
      by_contra hc
      rw [(num_elements_eq_none_iff p).mpr hc] at hnum
      exact Option.noConfusion hnum
    rw [create_A_random_of_some drbg A seed p st n hnum]
    refine ⟨⟨?_, fun h => absurd hin h⟩, ⟨fun _ => hin, fun _ => ⟨_, _, rfl, by simp⟩⟩,
      ⟨fun _ => hin, fun _ => ⟨_, _, _, rfl⟩⟩⟩
    rintro ⟨st1, h, -⟩
    exact Outcome.noConfusion h

/-- C3: for every seed and every parameter set with `tau ∈ {0,1,2}`, with the
sampler of the model (rejection of candidates outside `[0, range)`), every
element `create_A_random` writes to the matrix is a value `v` with
`0 ≤ v < params.q`: the written elements are the sampler output for the range
argument `params.q`, stored at the start of the buffer. -/
theorem create_A_random_elements_lt_q (X : shake_primitives) (stream_len : Nat)
    (A seed : List Nat) (p : parameters) (st : process_state)
    (htau : p.tau = 0 ∨ p.tau = 1 ∨ p.tau = 2) :
    ∃ n vals st1,
      num_elements p = some n ∧
      vals = drbg_sampler16_2_once X stream_len n seed p.kappa_bytes p.q ∧
      create_A_random (drbg_sampler16_2_once X stream_len) A seed p st =
        Outcome.returned 0 (store A vals) st1 ∧
      (store A vals).take vals.length = vals ∧
      ∀ v ∈ vals, 0 ≤ v ∧ v < p.q := by
  cases hnum : num_elements p with
  | none => exact absurd htau ((num_elements_eq_none_iff p).mp hnum)
  | some n =>
    refine ⟨n, _, _, rfl, rfl, create_A_random_of_some _ A seed p st n hnum, store_take _ _, ?_⟩
    intro v hv
    exact ⟨Nat.zero_le v, drbg_sampler16_2_once_lt X stream_len n seed p.kappa_bytes p.q v hv⟩

/-- Witness of C3 on the example vector: the eight elements written are
`0, 7, 14, 3, 10, 6, 13, 2`, all below `q = 16`. -/
theorem create_A_random_elements_lt_q_example :
    (example_params.tau = 0 ∨ example_params.tau = 1 ∨ example_params.tau = 2) ∧
    drbg_sampler16_2_once example_shake 64 8 example_seed 32 16 = [0, 7, 14, 3, 10, 6, 13, 2] ∧
    ∃ n vals st1,
      num_elements example_params = some n ∧
      vals = drbg_sampler16_2_once example_shake 64 n example_seed example_params.kappa_bytes
        example_params.q ∧
      create_A_random (drbg_sampler16_2_once example_shake 64)
        [40, 41, 42, 43, 44, 45, 46, 47, 48, 49] example_seed
        example_params initial_state =
        Outcome.returned 0 (store [40, 41, 42, 43, 44, 45, 46, 47, 48, 49] vals) st1 ∧
      (store [40, 41, 42, 43, 44, 45, 46, 47, 48, 49] vals).take vals.length = vals ∧
      ∀ v ∈ vals, 0 ≤ v ∧ v < example_params.q :=
  ⟨by decide, by decide,
    create_A_random_elements_lt_q example_shake 64 [40, 41, 42, 43, 44, 45, 46, 47, 48, 49]
      example_seed example_params initial_state (by decide)⟩

/-- C4: `create_A_random` is deterministic. For every seed `s` and parameter set
`p` with `tau ∈ {0,1,2}` (so that `num_elements` is some `n`) and a sampler
that delivers the `n` elements it is asked for, two calls with the same `(s, p)`
leave the same matrix of `n` elements, whatever the prior contents of the
output buffer and whatever ran before. -/
theorem create_A_random_deterministic (drbg : sampler) (seed : List Nat) (p : parameters)
    (n : Nat) (A A2 : List Nat) (st st2 : process_state)
    (hn : num_elements p = some n)
    (hdel : (drbg n seed p.kappa_bytes p.q).length = n) :
    (create_A_random drbg A seed p st).matrix n =
      (create_A_random drbg A2 seed p st2).matrix n ∧
    (create_A_random drbg A seed p st).matrix n = some (drbg n seed p.kappa_bytes p.q) := by
  have key : ∀ (B : List Nat) (s : process_state),
      (create_A_random drbg B seed p s).matrix n = some (drbg n seed p.kappa_bytes p.q) := by
    intro B s
    rw [create_A_random_of_some drbg B seed p s n hn]
    have h := store_take B (drbg n seed p.kappa_bytes p.q)
    rw [hdel] at h
    simp [Outcome.matrix, h]
  exact ⟨(key A st).trans (key A2 st2).symm, key A st⟩

/-- Witness of C4: the example vector on two buffers with different prior
contents and after different histories. -/
theorem create_A_random_deterministic_example :
    (create_A_random example_sampler [1, 2, 3, 4, 5, 6, 7, 8, 9] example_seed example_params
        initial_state).matrix 8 =
      (create_A_random example_sampler [30, 31, 32, 33, 34, 35, 36, 37] example_seed
        example_params { stderr := ["x"], sampler_calls := [] }).matrix 8 ∧
    (create_A_random example_sampler [1, 2, 3, 4, 5, 6, 7, 8, 9] example_seed example_params
        initial_state).matrix 8 =
      some (example_sampler 8 example_seed example_params.kappa_bytes example_params.q) :=
  create_A_random_deterministic example_sampler example_seed example_params 8
    [1, 2, 3, 4, 5, 6, 7, 8, 9] [30, 31, 32, 33, 34, 35, 36, 37] initial_state
    { stderr := ["x"], sampler_calls := [] }
    (by decide) (by decide)

/-- C10: `create_A_random` does not distinguish `tau = 0` from `tau = 1`. For
every seed and every two parameter sets that agree on `d`, `k`, `q` and
`kappa_bytes` and have `tau = 0` and `tau = 1`, and a sampler that delivers the
`d * k` elements it is asked for, both calls return `0` after the same single
sampler call for `(d * k elements, seed, kappa_bytes, q)` and leave the same
matrix, namely that sampler output, in the first `d * k` places of their
buffers, whatever the buffers held before; started on the same buffer and
state they end in the same outcome. -/
theorem create_A_random_tau_0_eq_tau_1 (drbg : sampler) (seed : List Nat) (p0 p1 : parameters)
    (A0 A1 : List Nat) (st0 st1 : process_state)
    (h0 : p0.tau = 0) (h1 : p1.tau = 1)
    (hd : p0.d = p1.d) (hk : p0.k = p1.k) (hq : p0.q = p1.q)
    (hkb : p0.kappa_bytes = p1.kappa_bytes)
    (hr : p0.in_range)
    (hdel : (drbg (p0.d * p0.k) seed p0.kappa_bytes p0.q).length = p0.d * p0.k) :
    (∃ B0 B1 s0 s1,
      create_A_random drbg A0 seed p0 st0 = Outcome.returned 0 B0 s0 ∧
      create_A_random drbg A1 seed p1 st1 = Outcome.returned 0 B1 s1 ∧
      B0.take (p0.d * p0.k) = drbg (p0.d * p0.k) seed p0.kappa_bytes p0.q ∧
      B1.take (p0.d * p0.k) = drbg (p0.d * p0.k) seed p0.kappa_bytes p0.q ∧
      B0.drop (p0.d * p0.k) = A0.drop (p0.d * p0.k) ∧
      B1.drop (p0.d * p0.k) = A1.drop (p0.d * p0.k) ∧
      s0.sampler_calls = st0.sampler_calls ++
        [{ xlen := p0.d * p0.k, seed := seed, seed_size := p0.kappa_bytes, range := p0.q }] ∧
      s1.sampler_calls = st1.sampler_calls ++
        [{ xlen := p0.d * p0.k, seed := seed, seed_size := p0.kappa_bytes, range := p0.q }]) ∧
    (create_A_random drbg A0 seed p0 st0).matrix (p0.d * p0.k) =
      (create_A_random drbg A1 seed p1 st1).matrix (p0.d * p0.k) ∧
    (create_A_random drbg A0 seed p0 st0).matrix (p0.d * p0.k) =
      some (drbg (p0.d * p0.k) seed p0.kappa_bytes p0.q) ∧
    create_A_random drbg A0 seed p0 st0 = create_A_random drbg A0 seed p1 st0 := by
  have hr1 : p1.in_range := by
    unfold parameters.in_range at hr ⊢
    rw [← hd, ← hk, ← hq]; exact hr
  have e0 : num_elements p0 = some (p0.d * p0.k) := by
    have h := num_elements_of_in_range p0 hr (Or.inl h0)
    simpa [h0] using h
  have e1 : num_elements p1 = some (p0.d * p0.k) := by
    have h := num_elements_of_in_range p1 hr1 (Or.inr (Or.inl h1))
    simpa [h1, hd, hk] using h
  have c0 := create_A_random_of_some drbg A0 seed p0 st0 _ e0
  have c1 := create_A_random_of_some drbg A1 seed p1 st1 _ e1
  have c2 := create_A_random_of_some drbg A0 seed p1 st0 _ e1
  rw [← hkb, ← hq] at c1 c2
  have ht : ∀ B : List Nat,
      (store B (drbg (p0.d * p0.k) seed p0.kappa_bytes p0.q)).take (p0.d * p0.k) =
        drbg (p0.d * p0.k) seed p0.kappa_bytes p0.q := by
    intro B
    have h := store_take B (drbg (p0.d * p0.k) seed p0.kappa_bytes p0.q)
    rwa [hdel] at h
  have hdr : ∀ B : List Nat,
      (store B (drbg (p0.d * p0.k) seed p0.kappa_bytes p0.q)).drop (p0.d * p0.k) =
        B.drop (p0.d * p0.k) := by
    intro B
    have h := store_drop B (drbg (p0.d * p0.k) seed p0.kappa_bytes p0.q)
    rwa [hdel] at h
  refine ⟨⟨_, _, _, _, c0, c1, ht A0, ht A1, hdr A0, hdr A1, rfl, rfl⟩, ?_, ?_, ?_⟩
  · rw [c0, c1]; simp only [Outcome.matrix, ht]
  · rw [c0]; simp only [Outcome.matrix, ht]
  · rw [c0, c2]

/-- Witness of C10: the example vector with `tau = 0` and with `tau = 1`, on two
buffers of ten elements with different prior contents: both hold
`0, 7, 14, 3, 10, 6, 13, 2` in their first eight places afterwards. -/
theorem create_A_random_tau_0_eq_tau_1_example :
    example_sampler (8 * 1) example_seed 32 16 = [0, 7, 14, 3, 10, 6, 13, 2] ∧
    (create_A_random example_sampler [1, 2, 3, 4, 5, 6, 7, 8, 9, 10] example_seed
        { d := 8, k := 1, q := 16, kappa_bytes := 32, tau := 0 } initial_state).matrix (8 * 1) =
      (create_A_random example_sampler [21, 22, 23, 24, 25, 26, 27, 28, 29, 30] example_seed
        example_params initial_state).matrix (8 * 1) ∧
    (create_A_random example_sampler [1, 2, 3, 4, 5, 6, 7, 8, 9, 10] example_seed
        { d := 8, k := 1, q := 16, kappa_bytes := 32, tau := 0 } initial_state).matrix (8 * 1) =
      some (example_sampler (8 * 1) example_seed 32 16) :=
  ⟨by decide,
    (create_A_random_tau_0_eq_tau_1 example_sampler example_seed
      { d := 8, k := 1, q := 16, kappa_bytes := 32, tau := 0 } example_params
      [1, 2, 3, 4, 5, 6, 7, 8, 9, 10] [21, 22, 23, 24, 25, 26, 27, 28, 29, 30]
      initial_state initial_state rfl rfl rfl rfl rfl rfl (by decide) (by decide)).2.1,
    (create_A_random_tau_0_eq_tau_1 example_sampler example_seed
      { d := 8, k := 1, q := 16, kappa_bytes := 32, tau := 0 } example_params
      [1, 2, 3, 4, 5, 6, 7, 8, 9, 10] [21, 22, 23, 24, 25, 26, 27, 28, 29, 30]
      initial_state initial_state rfl rfl rfl rfl rfl rfl (by decide) (by decide)).2.2.1⟩

/-! ## `hash` and `hash_customization` -/

/-- C5: for every input, output length and `kappa_bytes`, `hash` returns
`shake256(input)` when `kappa_bytes > 16` and `shake128(input)` otherwise, and
`hash_customization` returns `cshake256(input, customization)` when
`kappa_bytes > 16` and `cshake128(input, customization)` otherwise; in
particular `kappa_bytes = 16` selects the 128-bit variant and `kappa_bytes = 17`
the 256-bit variant in both functions. -/
theorem hash_selects_by_kappa_bytes (X : shake_primitives) (output_len : Nat)
    (input : List Nat) (input_len : Nat) (customization : List Nat) (customization_len : Nat)
    (kappa_bytes : Nat) :
    (16 < kappa_bytes ∧
        hash X output_len input input_len kappa_bytes = X.shake256 output_len input input_len ∧
        hash_customization X output_len input input_len customization customization_len
            kappa_bytes =
          X.cshake256 output_len input input_len customization customization_len
      ∨
      kappa_bytes ≤ 16 ∧
        hash X output_len input input_len kappa_bytes = X.shake128 output_len input input_len ∧
        hash_customization X output_len input input_len customization customization_len
            kappa_bytes =
          X.cshake128 output_len input input_len customization customization_len) ∧
    hash X output_len input input_len 16 = X.shake128 output_len input input_len ∧
    hash X output_len input input_len 17 = X.shake256 output_len input input_len ∧
    hash_customization X output_len input input_len customization customization_len 16 =
      X.cshake128 output_len input input_len customization customization_len ∧
    hash_customization X output_len input input_len customization customization_len 17 =
      X.cshake256 output_len input input_len customization customization_len := by
  refine ⟨?_, by simp [hash], by simp [hash], by simp [hash_customization],
    by simp [hash_customization]⟩
  by_cases h : 16 < kappa_bytes
  · exact Or.inl ⟨h, by simp [hash, h], by simp [hash_customization, h]⟩
  · exact Or.inr ⟨Nat.le_of_not_lt h, by simp [hash, h], by simp [hash_customization, h]⟩

/-! ## The fixed matrix -/

/-- C8: `create_A_fixed` is idempotent on the fixed-matrix state. After
`create_A_fixed(s, p)` has succeeded, reading `A_fixed` and `A_fixed_len` any
number of times gives the same contents and length each time and leaves the
globals as they are, and a second `create_A_fixed(s, p)` with the same seed and
parameters succeeds and leaves the contents of `A_fixed` and `A_fixed_len`
unchanged. -/
theorem create_A_fixed_idempotent (drbg : sampler) (seed : List Nat) (p : parameters)
    (g g1 : fixed_matrix)
    (h : create_A_fixed drbg seed p g = Except.ok g1) :
    create_A_fixed drbg seed p g1 = Except.ok g1 ∧
    ∀ n, read_A_fixed_times n g1 = (List.replicate n (g1.A_fixed, g1.A_fixed_len), g1) := by
  constructor
  · unfold create_A_fixed at h ⊢
    cases hc : element_count p with
    | none => rw [hc] at h; exact Except.noConfusion h
    | some n => rw [hc] at h; exact h
  · intro n
    induction n with
    | zero => rfl
    | succ n ih => simp [read_A_fixed_times, read_A_fixed, ih, List.replicate_succ]

/-- Witness of C8: the fixed matrix of the example vector, created from the
initial globals (`A_fixed` empty, `A_fixed_len = 0`). -/
theorem create_A_fixed_idempotent_example :
    create_A_fixed example_sampler example_seed example_params
        { A_fixed := [0, 7, 14, 3, 10, 6, 13, 2], A_fixed_len := 8 } =
      Except.ok { A_fixed := [0, 7, 14, 3, 10, 6, 13, 2], A_fixed_len := 8 } ∧
    ∀ n, read_A_fixed_times n { A_fixed := [0, 7, 14, 3, 10, 6, 13, 2], A_fixed_len := 8 } =
      (List.replicate n ([0, 7, 14, 3, 10, 6, 13, 2], 8),
        { A_fixed := [0, 7, 14, 3, 10, 6, 13, 2], A_fixed_len := 8 }) :=
  create_A_fixed_idempotent example_sampler example_seed example_params
    { A_fixed := [], A_fixed_len := 0 }
    { A_fixed := [0, 7, 14, 3, 10, 6, 13, 2], A_fixed_len := 8 } (by rfl)

/-! ## The CCA KEM -/

/-- C7: `r5_cca_kem_decapsulate_p` never reports a decryption failure. For every
secret key and every ciphertext, tampered ones included, it returns `0` with a
shared secret; when the re-encrypted ciphertext differs from the received one
the secret is `hashWithTag(r ∥ ct, "derive")`, computed from the
implicit-rejection value `r` of the secret key and not from the decrypted
message: it is the same for any other decryption that is rejected as well. -/
theorem r5_cca_kem_decapsulate_p_never_fails (P : CPAPrimitive) (H : tagged_hash)
    (c : kem_ciphertext) (sk : secret_key) :
    (∃ k, r5_cca_kem_decapsulate_p P H c sk = (0, k)) ∧
    (reencrypt P H c sk ≠ c.ct →
      r5_cca_kem_decapsulate_p P H c sk = (0, H (sk.r ++ c.ct) "derive")) ∧
    (∀ P2 : CPAPrimitive, reencrypt P H c sk ≠ c.ct → reencrypt P2 H c sk ≠ c.ct →
      r5_cca_kem_decapsulate_p P2 H c sk = r5_cca_kem_decapsulate_p P H c sk) := by
  have rej : ∀ Q : CPAPrimitive, reencrypt Q H c sk ≠ c.ct →
      r5_cca_kem_decapsulate_p Q H c sk = (0, H (sk.r ++ c.ct) "derive") := by
    intro Q hQ
    simp only [r5_cca_kem_decapsulate_p, if_neg hQ]
  refine ⟨?_, rej P, fun P2 h h2 => (rej P2 h2).trans (rej P h).symm⟩
  by_cases h : reencrypt P H c sk = c.ct
  · exact ⟨H (P.decrypt c.ct sk.cpa_sk ++ c.ct) "derive",
      by simp only [r5_cca_kem_decapsulate_p, if_pos h]⟩
  · exact ⟨_, rej P h⟩

/-- Witness of C7: a tampered ciphertext (its second byte changed from `4` to
`9`) is rejected implicitly: the call returns `0` and the secret is
`hashWithTag(r ∥ ct, "derive")` for `r = [9]`. -/
theorem r5_cca_kem_decapsulate_p_never_fails_example :
    reencrypt example_cpa example_hash { ct := [1, 9, 5], confirmation := [5, 1, 4, 5] }
        { cpa_sk := [2, 1], r := [9], pk := [1, 2] } ≠ [1, 9, 5] ∧
    r5_cca_kem_decapsulate_p example_cpa example_hash
        { ct := [1, 9, 5], confirmation := [5, 1, 4, 5] }
        { cpa_sk := [2, 1], r := [9], pk := [1, 2] } =
      (0, example_hash ([9] ++ [1, 9, 5]) "derive") :=
  ⟨by decide,
    (r5_cca_kem_decapsulate_p_never_fails example_cpa example_hash
      { ct := [1, 9, 5], confirmation := [5, 1, 4, 5] }
      { cpa_sk := [2, 1], r := [9], pk := [1, 2] }).2.1 (by decide)⟩

end Round5
